import Mathlib

/-
Shallow embedding of the tiered credential-storage core of the
echoir-tidal-api repository: the TokenManager state machine over the
three storage tiers (D1 transactional store, Cloudflare KV, Upstash
Redis), the StorageFactory, the D1Storage adapter initialization, the
refresh logic, and the caller-side staleness check in TidalAPI.

Modelling conventions:
- Timestamps are integers (milliseconds since the epoch).  The source
  stores expires and updated_at as ISO strings produced by
  Date.prototype.toISOString, whose lexicographic order coincides with
  the numeric order of the underlying instants, so Int comparison is a
  faithful model of the Date comparison in the source.
- Backend I/O is modelled by oracles: a ReadOutcomes / WriteOutcomes
  value fixes, for one manager operation, the result each physical
  backend would return if consulted.  Each backend is consulted at most
  once per operation in the source, so one outcome per backend suffices.
- JS thrown objects of shape (status, message) are modelled by JsError.
- The quota thresholds in the source are computed as limit * 0.95 in
  IEEE doubles; for the configured limits (5000000, 100000, 100000,
  1000) these products are the exact integers 4750000, 95000, 95000 and
  950, so Nat arithmetic (limit * 95 / 100) models them exactly.
-/

namespace Echoir

deriving instance DecidableEq for Except

/-- Session profiles, from the SessionType enum in src/types. -/
inductive SessionType where
  | TV
  | MOBILE_DEFAULT
  | MOBILE_ATMOS
deriving DecidableEq, Repr

/-- Credential record, from the TokenData interface in src/types. -/
structure TokenData where
  access_token : String
  refresh_token : String
  expires : Int
  country_code : String
  updated_at : Int
deriving DecidableEq, Repr

/-- A thrown JS object of shape (status, message), as used throughout
the storage layer (status 404 for not-found, 500 for wrapped backend
faults, 429 for quota rejection). -/
structure JsError where
  status : Option Nat
  message : String
deriving DecidableEq, Repr

/-- The three storage backends. -/
inductive Provider where
  | d1
  | kv
  | redis
deriving DecidableEq, Repr

/-- The slice of the worker environment that the storage core reads and
mutates: presence of the D1 and Redis bindings, the USE_D1 and
USE_REDIS flags, and STORAGE_PREFERENCE.  KV (TIDAL_TOKENS) is always
bound. -/
structure Env where
  hasD1 : Bool
  hasRedis : Bool
  useD1 : Bool
  useRedis : Bool
  storagePreference : Option String
deriving DecidableEq, Repr

/-- Usage statistics, from the StorageStats interface in src/types. -/
structure StorageStats where
  provider : String
  reads : Nat
  writes : Nat
  errors : Nat
  status : String
deriving DecidableEq, Repr

/-- In-memory state of one TokenManager instance: the environment (the
source mutates env.USE_D1 and env.USE_REDIS), the active storage
provider object, the statistics and the consecutive-error counter. -/
structure TokenManager where
  env : Env
  storage : Provider
  storageStats : StorageStats
  consecutiveErrors : Nat
deriving DecidableEq, Repr

/-- errorThreshold field of TokenManager: consecutive errors before a
forced switch. -/
def errorThreshold : Nat := 3

/-- storageLimits.d1.reads. -/
def d1ReadLimit : Nat := 5000000
/-- storageLimits.d1.writes. -/
def d1WriteLimit : Nat := 100000
/-- storageLimits.kv.reads. -/
def kvReadLimit : Nat := 100000
/-- storageLimits.kv.writes. -/
def kvWriteLimit : Nat := 1000

/-- d1Limits.reads * d1Limits.threshold; the float product is the exact
integer 4750000. -/
def d1ReadThreshold : Nat := d1ReadLimit * 95 / 100
/-- d1Limits.writes * d1Limits.threshold; exactly 95000. -/
def d1WriteThreshold : Nat := d1WriteLimit * 95 / 100
/-- kvLimits.reads * kvLimits.threshold; exactly 95000. -/
def kvReadThreshold : Nat := kvReadLimit * 95 / 100
/-- kvLimits.writes * kvLimits.threshold; exactly 950. -/
def kvWriteThreshold : Nat := kvWriteLimit * 95 / 100

/-- JS truthiness of an optional string: undefined and the empty string
are falsy. -/
def strTruthy : Option String → Bool
  | none => false
  | some s => !(s == "")

/-- value of (a or b) for an optional string a and default b, as in
tvData.refresh_token or tokens.refresh_token. -/
def orFalsy (v : Option String) (dflt : String) : String :=
  match v with
  | none => dflt
  | some s => if s == "" then dflt else s

/-- StorageFactory.createStorage: returns the provider for the forced
choice, or the default choice derived from the environment flags.
Throws (models as error) when a forced provider lacks its binding. -/
def StorageFactory.createStorage (env : Env) (forceProvider : Option Provider) :
    Except String Provider :=
  match forceProvider with
  | some Provider.d1 =>
      if !env.hasD1 then Except.error "D1 is not configured but was requested"
      else Except.ok Provider.d1
  | some Provider.redis =>
      if !env.hasRedis then Except.error "Redis is not configured but was requested"
      else Except.ok Provider.redis
  | some Provider.kv => Except.ok Provider.kv
  | none =>
      if env.useD1 && env.hasD1 then Except.ok Provider.d1
      else if env.useRedis && env.hasRedis then Except.ok Provider.redis
      else Except.ok Provider.kv

/-- The default (unforced) branch of StorageFactory.createStorage. -/
def defaultProvider (env : Env) : Provider :=
  if env.useD1 && env.hasD1 then Provider.d1
  else if env.useRedis && env.hasRedis then Provider.redis
  else Provider.kv

/-- TokenManager constructor: normalizes STORAGE_PREFERENCE, derives
USE_D1 and USE_REDIS, creates the storage provider through the factory
default branch, and sets the provider name in the statistics. -/
def TokenManager.create (env0 : Env) : TokenManager :=
  let pref := if strTruthy env0.storagePreference then env0.storagePreference
              else some "auto"
  let useD1 := env0.hasD1 && (pref = some "d1" || pref = some "auto")
  let useRedis :=
    if !useD1 && env0.hasRedis && (pref = some "redis" || pref = some "auto") then
      true
    else if useD1 then false
    else env0.useRedis
  let env1 : Env :=
    { env0 with
      storagePreference := pref
      useD1 := useD1
      useRedis := useRedis }
  { env := env1
    storage := defaultProvider env1
    storageStats :=
      { provider := if useD1 then "d1" else if useRedis then "redis" else "kv"
        reads := 0, writes := 0, errors := 0, status := "operational" }
    consecutiveErrors := 0 }

/-- TokenManager.shouldSwitchFromD1ToKV. -/
def shouldSwitchFromD1ToKV (s : TokenManager) : Bool :=
  if !s.env.useD1 || !(s.env.storagePreference = some "auto") then false
  else if s.storageStats.reads ≥ d1ReadThreshold
       || s.storageStats.writes ≥ d1WriteThreshold then true
  else if s.consecutiveErrors ≥ errorThreshold then true
  else false

/-- TokenManager.shouldSwitchFromKVToRedis. -/
def shouldSwitchFromKVToRedis (s : TokenManager) : Bool :=
  if s.env.useD1 || s.env.useRedis || !s.env.hasRedis
     || !(s.env.storagePreference = some "auto") then false
  else if s.storageStats.reads ≥ kvReadThreshold
       || s.storageStats.writes ≥ kvWriteThreshold then true
  else if s.consecutiveErrors ≥ errorThreshold then true
  else false

/-- TokenManager.switchFromD1ToKV: clears USE_D1 and USE_REDIS, makes
KV the active provider (the factory forced to kv always returns kv) and
resets the statistics and the consecutive-error counter. -/
def switchFromD1ToKV (s : TokenManager) : TokenManager :=
  if s.env.useD1 then
    { env := { s.env with useD1 := false, useRedis := false }
      storage := Provider.kv
      storageStats := { provider := "kv", reads := 0, writes := 0, errors := 0,
                        status := s.storageStats.status }
      consecutiveErrors := 0 }
  else s

/-- TokenManager.switchFromKVToRedis: sets USE_REDIS, makes Redis the
active provider (the guard ensures the Redis binding is present, so the
factory forced to redis returns redis) and resets the statistics and
the consecutive-error counter. -/
def switchFromKVToRedis (s : TokenManager) : TokenManager :=
  if !s.env.useD1 && !s.env.useRedis && s.env.hasRedis then
    { env := { s.env with useRedis := true }
      storage := Provider.redis
      storageStats := { provider := "redis", reads := 0, writes := 0, errors := 0,
                        status := s.storageStats.status }
      consecutiveErrors := 0 }
  else s

/-- The transition-policy evaluation at the top of both getTokens and
updateTokens in the source. -/
def preOpSwitch (s : TokenManager) : TokenManager :=
  if s.env.useD1 && shouldSwitchFromD1ToKV s then switchFromD1ToKV s
  else if !s.env.useD1 && !s.env.useRedis && shouldSwitchFromKVToRedis s then
    switchFromKVToRedis s
  else s

/-- Oracle for one getTokens call: the result each backend would return
if read during that call. -/
structure ReadOutcomes where
  d1 : Except JsError TokenData
  kv : Except JsError TokenData
  redis : Except JsError TokenData

/-- Oracle for the writes of one updateTokens call. -/
structure WriteOutcomes where
  d1 : Except JsError Unit
  kv : Except JsError Unit
  redis : Except JsError Unit

def ReadOutcomes.read (o : ReadOutcomes) : Provider → Except JsError TokenData
  | Provider.d1 => o.d1
  | Provider.kv => o.kv
  | Provider.redis => o.redis

def WriteOutcomes.write (o : WriteOutcomes) : Provider → Except JsError Unit
  | Provider.d1 => o.d1
  | Provider.kv => o.kv
  | Provider.redis => o.redis

/-- Result of one getTokens call: the post state, the returned value or
thrown error, and the backends read, in order. -/
structure ReadResult where
  state : TokenManager
  result : Except JsError TokenData
  attempts : List Provider

/-- this.storageStats.reads++ . -/
def bumpReads (s : TokenManager) : TokenManager :=
  { s with storageStats := { s.storageStats with reads := s.storageStats.reads + 1 } }

/-- this.storageStats.writes++ . -/
def bumpWrites (s : TokenManager) : TokenManager :=
  { s with storageStats := { s.storageStats with writes := s.storageStats.writes + 1 } }

/-- The catch prologue of both operations: errors++ and
consecutiveErrors++ . -/
def noteError (s : TokenManager) : TokenManager :=
  { s with
    storageStats := { s.storageStats with errors := s.storageStats.errors + 1 }
    consecutiveErrors := s.consecutiveErrors + 1 }

/-- this.consecutiveErrors = 0 on operation success. -/
def clearConsecutive (s : TokenManager) : TokenManager :=
  { s with consecutiveErrors := 0 }

/-- The permanent-switch condition inside the fallback paths:
auto mode and (a 429 error or the error threshold reached). -/
def fallbackSwitchCond (s : TokenManager) (e : JsError) : Bool :=
  s.env.storagePreference = some "auto"
    && (e.status = some 429 || s.consecutiveErrors ≥ errorThreshold)

/-- The catch block of getTokens: tiered one-shot fallback reads, with
a permanent switch when fallbackSwitchCond holds.  primary is the
backend whose read failed with e; s3 is the state after the catch
prologue. -/
def getTokensFallback (s3 : TokenManager) (o : ReadOutcomes) (e : JsError)
    (primary : Provider) : ReadResult :=
  if s3.env.useD1 then
    match o.read Provider.kv with
    | Except.ok tokens =>
        { state := if fallbackSwitchCond s3 e then switchFromD1ToKV s3 else s3
          result := Except.ok tokens
          attempts := [primary, Provider.kv] }
    | Except.error kvError =>
        if s3.env.hasRedis then
          match o.read Provider.redis with
          | Except.ok tokens =>
              { state := s3, result := Except.ok tokens
                attempts := [primary, Provider.kv, Provider.redis] }
          | Except.error _ =>
              { state := s3, result := Except.error e
                attempts := [primary, Provider.kv, Provider.redis] }
        else
          { state := s3, result := Except.error kvError
            attempts := [primary, Provider.kv] }
  else if !s3.env.useRedis then
    if s3.env.hasRedis then
      match o.read Provider.redis with
      | Except.ok tokens =>
          { state := if fallbackSwitchCond s3 e then switchFromKVToRedis s3 else s3
            result := Except.ok tokens
            attempts := [primary, Provider.redis] }
      | Except.error _ =>
          { state := s3, result := Except.error e
            attempts := [primary, Provider.redis] }
    else
      { state := s3, result := Except.error e, attempts := [primary] }
  else
    { state := s3, result := Except.error e, attempts := [primary] }

/-- TokenManager.getTokens for one call, as a pure step on the manager
state, driven by a ReadOutcomes oracle. -/
def getTokensStep (s : TokenManager) (o : ReadOutcomes) : ReadResult :=
  match o.read (bumpReads (preOpSwitch s)).storage with
  | Except.ok tokens =>
      { state := clearConsecutive (bumpReads (preOpSwitch s))
        result := Except.ok tokens
        attempts := [(bumpReads (preOpSwitch s)).storage] }
  | Except.error e =>
      getTokensFallback (noteError (bumpReads (preOpSwitch s))) o e
        (bumpReads (preOpSwitch s)).storage

/-- Result of one updateTokens call: the post state, the outcome, the
primary and fallback write attempts in order, and the best-effort
mirror (backup) writes attempted after a primary success. -/
structure WriteResult where
  state : TokenManager
  result : Except JsError Unit
  attempts : List Provider
  mirrors : List Provider

/-- The tiered backup block in the success path of updateTokens: the
best-effort mirror writes attempted (each is caught and logged in the
source, never changing the state or the outcome). -/
def mirrorTargets (s : TokenManager) : List Provider :=
  if s.env.storagePreference = some "auto" then
    if s.env.useD1 then
      Provider.kv :: (if s.env.hasRedis then [Provider.redis] else [])
    else if !s.env.useRedis && s.env.hasRedis then [Provider.redis]
    else []
  else []

/-- The catch block of updateTokens: tiered fallback writes, with a
permanent switch when fallbackSwitchCond holds. -/
def updateTokensFallback (s3 : TokenManager) (o : WriteOutcomes) (e : JsError)
    (primary : Provider) : WriteResult :=
  if s3.env.useD1 then
    match o.write Provider.kv with
    | Except.ok _ =>
        { state := if fallbackSwitchCond s3 e then switchFromD1ToKV s3 else s3
          result := Except.ok ()
          attempts := [primary, Provider.kv], mirrors := [] }
    | Except.error kvError =>
        if s3.env.hasRedis then
          match o.write Provider.redis with
          | Except.ok _ =>
              { state := s3, result := Except.ok ()
                attempts := [primary, Provider.kv, Provider.redis], mirrors := [] }
          | Except.error _ =>
              { state := s3, result := Except.error e
                attempts := [primary, Provider.kv, Provider.redis], mirrors := [] }
        else
          { state := s3, result := Except.error kvError
            attempts := [primary, Provider.kv], mirrors := [] }
  else if !s3.env.useRedis then
    if s3.env.hasRedis then
      match o.write Provider.redis with
      | Except.ok _ =>
          { state := if fallbackSwitchCond s3 e then switchFromKVToRedis s3 else s3
            result := Except.ok ()
            attempts := [primary, Provider.redis], mirrors := [] }
      | Except.error _ =>
          { state := s3, result := Except.error e
            attempts := [primary, Provider.redis], mirrors := [] }
    else
      { state := s3, result := Except.error e, attempts := [primary], mirrors := [] }
  else
    { state := s3, result := Except.error e, attempts := [primary], mirrors := [] }

/-- TokenManager.updateTokens for one call, as a pure step on the
manager state, driven by a WriteOutcomes oracle. -/
def updateTokensStep (s : TokenManager) (o : WriteOutcomes) : WriteResult :=
  match o.write (bumpWrites (preOpSwitch s)).storage with
  | Except.ok _ =>
      { state := clearConsecutive (bumpWrites (preOpSwitch s))
        result := Except.ok ()
        attempts := [(bumpWrites (preOpSwitch s)).storage]
        mirrors := mirrorTargets (clearConsecutive (bumpWrites (preOpSwitch s))) }
  | Except.error e =>
      updateTokensFallback (noteError (bumpWrites (preOpSwitch s))) o e
        (bumpWrites (preOpSwitch s)).storage

/-- One upstream authorization response, as consumed by the refresh
logic: the ok flag, the JSON fields access_token, refresh_token
(optional: the upstream may or may not rotate it), expires_in (seconds)
and user.countryCode. -/
structure AuthResponse where
  ok : Bool
  access_token : String
  refresh_token : Option String
  expires_in : Int
  countryCode : String
deriving DecidableEq, Repr

/-- TokenManager.refreshMobileToken: exchanges the given refresh token
for a profile-specific access token.  The returned record keeps the
refreshToken argument as its refresh_token (the comment in the source
reads: Keep original refresh token); the response refresh token, if
any, is ignored. -/
def refreshMobileToken (refreshToken : String) (resp : AuthResponse)
    (now : Int) : Except JsError TokenData :=
  if !resp.ok then
    Except.error { status := some 500, message := "Failed to refresh token" }
  else
    Except.ok
      { access_token := resp.access_token
        refresh_token := refreshToken
        expires := now + resp.expires_in * 1000
        country_code := resp.countryCode
        updated_at := now }

/-- Result of one refreshTokens call: the post manager state, the
returned record or thrown error, and the records handed to
updateTokens for the TV profile and for the requested profile. -/
structure RefreshResult where
  state : TokenManager
  result : Except JsError TokenData
  persistedTv : Option TokenData
  persistedForProfile : Option TokenData

/-- TokenManager.refreshTokens: always refreshes the TV profile first
(tvResp models the upstream response to that exchange), persists the
new TV record via updateTokens (driven by the tvWrite oracle), and for
a non-TV profile then exchanges the new TV refresh token via
refreshMobileToken (mobileResp models that response) and persists the
mobile record (mobWrite oracle).  Any thrown error is wrapped with
status 500 by the surrounding catch. -/
def refreshTokens (s : TokenManager) (sessionType : SessionType)
    (tokens : TokenData) (tvResp mobileResp : AuthResponse) (now : Int)
    (tvWrite mobWrite : WriteOutcomes) : RefreshResult :=
  if !tvResp.ok then
    { state := s
      result := Except.error { status := some 500, message := "Token refresh failed" }
      persistedTv := none, persistedForProfile := none }
  else
    let tvRefreshToken := orFalsy tvResp.refresh_token tokens.refresh_token
    let tvTokens : TokenData :=
      { access_token := tvResp.access_token
        refresh_token := tvRefreshToken
        expires := now + tvResp.expires_in * 1000
        country_code := tvResp.countryCode
        updated_at := now }
    let w1 := updateTokensStep s tvWrite
    match w1.result with
    | Except.error _ =>
        { state := w1.state
          result := Except.error { status := some 500, message := "Token refresh failed" }
          persistedTv := some tvTokens, persistedForProfile := none }
    | Except.ok _ =>
        if sessionType = SessionType.TV then
          { state := w1.state, result := Except.ok tvTokens
            persistedTv := some tvTokens, persistedForProfile := some tvTokens }
        else
          match refreshMobileToken tvRefreshToken mobileResp now with
          | Except.error _ =>
              { state := w1.state
                result := Except.error { status := some 500, message := "Token refresh failed" }
                persistedTv := some tvTokens, persistedForProfile := none }
          | Except.ok mobileTokens =>
              let w2 := updateTokensStep w1.state mobWrite
              match w2.result with
              | Except.error _ =>
                  { state := w2.state
                    result := Except.error { status := some 500, message := "Token refresh failed" }
                    persistedTv := some tvTokens
                    persistedForProfile := some mobileTokens }
              | Except.ok _ =>
                  { state := w2.state, result := Except.ok mobileTokens
                    persistedTv := some tvTokens
                    persistedForProfile := some mobileTokens }

/-- The staleness test inside TidalAPI.makeRequest: the source compares
new Date() GT new Date(tokens.expires), i.e. refreshes exactly when the
current time is strictly after the expiry instant. -/
def TidalAPI.isExpired (now : Int) (tokens : TokenData) : Bool :=
  tokens.expires < now

/-- The record that TidalAPI.makeRequest goes on to use: the refreshed
record when the staleness test fires, the stored record otherwise. -/
def TidalAPI.tokensForRequest (now : Int) (tokens refreshed : TokenData) : TokenData :=
  if tokens.expires < now then refreshed else tokens

/-- State of the D1 database visible to the adapter: whether the tokens
table exists, and its rows (key to serialized record). -/
structure D1State where
  hasTokensTable : Bool
  rows : List (String × String)
deriving DecidableEq, Repr

/-- D1Storage.initialize (named initTokensTable here because of naming
constraints in this development): queries sqlite_master for the tokens
table and returns; no branch of the body issues a CREATE TABLE, so the
database state is returned unchanged.  checkOk models whether the
sqlite_master query itself succeeds. -/
def D1Storage.initTokensTable (db : D1State) (checkOk : Bool) :
    Except JsError D1State :=
  if checkOk then
    if db.hasTokensTable = false then Except.ok db
    else Except.ok db
  else
    Except.error { status := some 500, message := "D1 error checking database" }

/-- Default StorageStats value used for out-of-range heap reads. -/
def emptyStats : StorageStats :=
  { provider := "kv", reads := 0, writes := 0, errors := 0, status := "operational" }

/-- A heap of JS StorageStats objects: addresses are list indices and
allocation appends.  This models JS object identity, which the spread
copy in getStorageStats is about. -/
def heapGet (h : List StorageStats) (r : Nat) : StorageStats :=
  h.getD r emptyStats

/-- Field assignment on the object at address r. -/
def heapSet (h : List StorageStats) (r : Nat) (v : StorageStats) :
    List StorageStats :=
  h.set r v

/-- TokenManager.getStorageStats: return a spread copy of
this.storageStats, i.e. allocate a fresh object whose fields are copied
from the object the manager owns, and hand the caller the fresh
address. -/
def getStorageStatsHeap (h : List StorageStats) (statsRef : Nat) :
    List StorageStats × Nat :=
  (h ++ [heapGet h statsRef], h.length)

/-- Tier rank in the fallback order: D1 highest, then KV, then Redis. -/
def tierIdx : Provider → Nat
  | Provider.d1 => 0
  | Provider.kv => 1
  | Provider.redis => 2

/-- Consistency invariant of a running TokenManager: USE_D1 is only set
when the D1 binding exists, and the active provider object is the one
the factory default branch yields for the current flags.  It holds
after the constructor and is preserved by every operation. -/
def Inv (s : TokenManager) : Prop :=
  (s.env.useD1 = true → s.env.hasD1 = true) ∧ s.storage = defaultProvider s.env

instance (s : TokenManager) : Decidable (Inv s) := by
  unfold Inv
  infer_instance

/-- One manager operation together with its backend oracle. -/
inductive Op where
  | read (o : ReadOutcomes)
  | write (o : WriteOutcomes)

def applyOp (s : TokenManager) : Op → TokenManager
  | Op.read o => (getTokensStep s o).state
  | Op.write o => (updateTokensStep s o).state

/-- Run a sequence of getTokens and updateTokens operations. -/
def runOps (s : TokenManager) (ops : List Op) : TokenManager :=
  ops.foldl applyOp s

/-- Spec-side description of the mirror targets: every strictly lower
configured tier in the order D1, KV, Redis (KV is always configured;
Redis only when its binding is present).  Compared with the
source-derived mirrorTargets in the theorem for the mirrored-write
claim. -/
def lowerConfiguredTiers (s : TokenManager) : List Provider :=
  match s.storage with
  | Provider.d1 => Provider.kv :: (if s.env.hasRedis then [Provider.redis] else [])
  | Provider.kv => if s.env.hasRedis then [Provider.redis] else []
  | Provider.redis => []

/-- A record with an expiry far in the future, used as a fixture. -/
def sampleTokens : TokenData :=
  { access_token := "a1", refresh_token := "r1", expires := 999999999999
    country_code := "US", updated_at := 0 }

/-- A stored mobile record whose refresh token is R1, used as a fixture. -/
def tokensR1 : TokenData :=
  { access_token := "am0", refresh_token := "R1", expires := 0
    country_code := "US", updated_at := 0 }

def errD1 : JsError := { status := some 500, message := "D1 error getting tokens" }
def errKV : JsError := { status := some 404, message := "No tokens found for session type" }
def errRedis : JsError := { status := some 500, message := "redis failure" }
def err429 : JsError := { status := some 429, message := "quota exceeded" }

def oReadAllOk : ReadOutcomes :=
  { d1 := Except.ok sampleTokens, kv := Except.ok sampleTokens
    redis := Except.ok sampleTokens }

def oReadAllFail : ReadOutcomes :=
  { d1 := Except.error errD1, kv := Except.error errKV
    redis := Except.error errRedis }

def oReadKVRedisFail : ReadOutcomes :=
  { d1 := Except.ok sampleTokens, kv := Except.error errRedis
    redis := Except.error errKV }

def oReadKV429 : ReadOutcomes :=
  { d1 := Except.error errD1, kv := Except.error err429
    redis := Except.ok sampleTokens }

def oReadD1KVFail : ReadOutcomes :=
  { d1 := Except.error errD1, kv := Except.error errKV
    redis := Except.ok sampleTokens }

def wAllOk : WriteOutcomes :=
  { d1 := Except.ok (), kv := Except.ok (), redis := Except.ok () }

def wMirrorsFail : WriteOutcomes :=
  { d1 := Except.ok (), kv := Except.error errKV, redis := Except.error errRedis }

/-- Deployment with D1 and Redis bound, preference auto. -/
def envD1Redis : Env :=
  { hasD1 := true, hasRedis := true, useD1 := false, useRedis := false
    storagePreference := some "auto" }

/-- Deployment with D1 bound and no Redis, preference auto. -/
def envD1only : Env :=
  { hasD1 := true, hasRedis := false, useD1 := false, useRedis := false
    storagePreference := some "auto" }

/-- Deployment with only KV, preference auto. -/
def envKVonly : Env :=
  { hasD1 := false, hasRedis := false, useD1 := false, useRedis := false
    storagePreference := some "auto" }

def mgrD1Redis : TokenManager := TokenManager.create envD1Redis
def mgrD1only : TokenManager := TokenManager.create envD1only
def mgrKVonly : TokenManager := TokenManager.create envKVonly

/-- Reachable state: D1 active with three consecutive errors recorded
(three getTokens calls in which every tier failed). -/
def mgrD1consec3 : TokenManager :=
  runOps mgrD1Redis
    [Op.read oReadAllFail, Op.read oReadAllFail, Op.read oReadAllFail]

/-- Reachable state: KV active (after a D1 demotion) with three
consecutive errors recorded against KV. -/
def mgrKVconsec3 : TokenManager :=
  runOps mgrD1Redis
    [Op.read oReadAllFail, Op.read oReadAllFail, Op.read oReadAllFail,
     Op.read oReadKVRedisFail, Op.read oReadKVRedisFail, Op.read oReadKVRedisFail]

/-- D1 active with 95500 writes recorded, as in the spec scenario. -/
def mgrD1writes95500 : TokenManager :=
  { env := { envD1Redis with useD1 := true }
    storage := Provider.d1
    storageStats := { provider := "d1", reads := 0, writes := 95500, errors := 0
                      status := "operational" }
    consecutiveErrors := 0 }

/-- KV active (Redis configured) with the KV read quota threshold
reached. -/
def mgrKVreads95000 : TokenManager :=
  { env := envD1Redis
    storage := Provider.kv
    storageStats := { provider := "kv", reads := 95000, writes := 0, errors := 0
                      status := "operational" }
    consecutiveErrors := 0 }

/-- Upstream TV refresh response that rotates the refresh token to R2. -/
def tvRespRot : AuthResponse :=
  { ok := true, access_token := "atv2", refresh_token := some "R2"
    expires_in := 3600, countryCode := "US" }

/-- Upstream TV refresh response that does not rotate the refresh
token. -/
def tvRespNoRot : AuthResponse :=
  { ok := true, access_token := "atv2", refresh_token := none
    expires_in := 3600, countryCode := "US" }

/-- Upstream mobile exchange response. -/
def mobResp : AuthResponse :=
  { ok := true, access_token := "am2", refresh_token := none
    expires_in := 3600, countryCode := "US" }

theorem inv_switchFromD1ToKV (s : TokenManager) (h : Inv s) :
    Inv (switchFromD1ToKV s) := by
  unfold switchFromD1ToKV
  split
  · exact ⟨by simp, by simp [defaultProvider]⟩
  · exact h

theorem inv_switchFromKVToRedis (s : TokenManager) (h : Inv s) :
    Inv (switchFromKVToRedis s) := by
  unfold switchFromKVToRedis
  split
  · rename_i hg
    simp only [Bool.and_eq_true, Bool.not_eq_true'] at hg
    exact ⟨by simp [hg.1.1], by simp [defaultProvider, hg.1.1, hg.2]⟩
  · exact h

theorem inv_preOpSwitch (s : TokenManager) (h : Inv s) : Inv (preOpSwitch s) := by
  unfold preOpSwitch
  split
  · exact inv_switchFromD1ToKV s h
  · split
    · exact inv_switchFromKVToRedis s h
    · exact h

@[simp] theorem bumpReads_env (s : TokenManager) : (bumpReads s).env = s.env := rfl
@[simp] theorem bumpReads_storage (s : TokenManager) :
    (bumpReads s).storage = s.storage := rfl
@[simp] theorem bumpWrites_env (s : TokenManager) : (bumpWrites s).env = s.env := rfl
@[simp] theorem bumpWrites_storage (s : TokenManager) :
    (bumpWrites s).storage = s.storage := rfl
@[simp] theorem noteError_env (s : TokenManager) : (noteError s).env = s.env := rfl
@[simp] theorem noteError_storage (s : TokenManager) :
    (noteError s).storage = s.storage := rfl
@[simp] theorem clearConsecutive_env (s : TokenManager) :
    (clearConsecutive s).env = s.env := rfl
@[simp] theorem clearConsecutive_storage (s : TokenManager) :
    (clearConsecutive s).storage = s.storage := rfl

theorem inv_bumpReads (s : TokenManager) (h : Inv s) : Inv (bumpReads s) := h
theorem inv_bumpWrites (s : TokenManager) (h : Inv s) : Inv (bumpWrites s) := h
theorem inv_noteError (s : TokenManager) (h : Inv s) : Inv (noteError s) := h
theorem inv_clearConsecutive (s : TokenManager) (h : Inv s) :
    Inv (clearConsecutive s) := h

theorem inv_getTokensFallback (s3 : TokenManager) (o : ReadOutcomes) (e : JsError)
    (p : Provider) (h : Inv s3) : Inv (getTokensFallback s3 o e p).state := by
  unfold getTokensFallback
  split
  · split
    · split
      · exact inv_switchFromD1ToKV s3 h
      · exact h
    · split
      · split <;> exact h
      · exact h
  · split
    · split
      · split
        · split
          · exact inv_switchFromKVToRedis s3 h
          · exact h
        · exact h
      · exact h
    · exact h

theorem inv_getTokensStep (s : TokenManager) (o : ReadOutcomes) (h : Inv s) :
    Inv (getTokensStep s o).state := by
  have h1 : Inv (preOpSwitch s) := inv_preOpSwitch s h
  unfold getTokensStep
  split
  · exact h1
  · exact inv_getTokensFallback _ o _ _ h1

theorem inv_updateTokensFallback (s3 : TokenManager) (o : WriteOutcomes)
    (e : JsError) (p : Provider) (h : Inv s3) :
    Inv (updateTokensFallback s3 o e p).state := by
  unfold updateTokensFallback
  split
  · split
    · split
      · exact inv_switchFromD1ToKV s3 h
      · exact h
    · split
      · split <;> exact h
      · exact h
  · split
    · split
      · split
        · split
          · exact inv_switchFromKVToRedis s3 h
          · exact h
        · exact h
      · exact h
    · exact h

theorem inv_updateTokensStep (s : TokenManager) (o : WriteOutcomes) (h : Inv s) :
    Inv (updateTokensStep s o).state := by
  have h1 : Inv (preOpSwitch s) := inv_preOpSwitch s h
  unfold updateTokensStep
  split
  · exact h1
  · exact inv_updateTokensFallback _ o _ _ h1

theorem storage_eq_d1_of_useD1 (s : TokenManager) (h : Inv s)
    (hu : s.env.useD1 = true) : s.storage = Provider.d1 := by
  rw [h.2]
  unfold defaultProvider
  simp [hu, h.1 hu]

theorem storage_eq_kv_of_flags (s : TokenManager) (h : Inv s)
    (hd : s.env.useD1 = false) (hr : s.env.useRedis = false) :
    s.storage = Provider.kv := by
  rw [h.2]
  unfold defaultProvider
  simp [hd, hr]

theorem tier_switchFromD1ToKV (s : TokenManager) (h : Inv s) :
    tierIdx s.storage ≤ tierIdx (switchFromD1ToKV s).storage := by
  unfold switchFromD1ToKV
  split
  · rename_i hu
    rw [storage_eq_d1_of_useD1 s h hu]
    simp [tierIdx]
  · exact le_refl _

theorem tier_switchFromKVToRedis (s : TokenManager) (h : Inv s) :
    tierIdx s.storage ≤ tierIdx (switchFromKVToRedis s).storage := by
  unfold switchFromKVToRedis
  split
  · rename_i hg
    simp only [Bool.and_eq_true, Bool.not_eq_true'] at hg
    rw [storage_eq_kv_of_flags s h hg.1.1 hg.1.2]
    simp [tierIdx]
  · exact le_refl _

theorem tier_preOpSwitch (s : TokenManager) (h : Inv s) :
    tierIdx s.storage ≤ tierIdx (preOpSwitch s).storage := by
  unfold preOpSwitch
  split
  · exact tier_switchFromD1ToKV s h
  · split
    · exact tier_switchFromKVToRedis s h
    · exact le_refl _

theorem tier_getTokensFallback (s3 : TokenManager) (o : ReadOutcomes)
    (e : JsError) (p : Provider) (h : Inv s3) :
    tierIdx s3.storage ≤ tierIdx (getTokensFallback s3 o e p).state.storage := by
  unfold getTokensFallback
  split
  · split
    · split
      · exact tier_switchFromD1ToKV s3 h
      · exact le_refl _
    · split
      · split <;> exact le_refl _
      · exact le_refl _
  · split
    · split
      · split
        · split
          · exact tier_switchFromKVToRedis s3 h
          · exact le_refl _
        · exact le_refl _
      · exact le_refl _
    · exact le_refl _

theorem tier_getTokensStep (s : TokenManager) (o : ReadOutcomes) (h : Inv s) :
    tierIdx s.storage ≤ tierIdx (getTokensStep s o).state.storage := by
  have h1 : Inv (preOpSwitch s) := inv_preOpSwitch s h
  have t1 : tierIdx s.storage ≤ tierIdx (preOpSwitch s).storage :=
    tier_preOpSwitch s h
  unfold getTokensStep
  split
  · exact t1
  · exact le_trans t1
      (tier_getTokensFallback (noteError (bumpReads (preOpSwitch s))) o _ _ h1)

theorem tier_updateTokensFallback (s3 : TokenManager) (o : WriteOutcomes)
    (e : JsError) (p : Provider) (h : Inv s3) :
    tierIdx s3.storage ≤ tierIdx (updateTokensFallback s3 o e p).state.storage := by
  unfold updateTokensFallback
  split
  · split
    · split
      · exact tier_switchFromD1ToKV s3 h
      · exact le_refl _
    · split
      · split <;> exact le_refl _
      · exact le_refl _
  · split
    · split
      · split
        · split
          · exact tier_switchFromKVToRedis s3 h
          · exact le_refl _
        · exact le_refl _
      · exact le_refl _
    · exact le_refl _

theorem tier_updateTokensStep (s : TokenManager) (o : WriteOutcomes) (h : Inv s) :
    tierIdx s.storage ≤ tierIdx (updateTokensStep s o).state.storage := by
  have h1 : Inv (preOpSwitch s) := inv_preOpSwitch s h
  have t1 : tierIdx s.storage ≤ tierIdx (preOpSwitch s).storage :=
    tier_preOpSwitch s h
  unfold updateTokensStep
  split
  · exact t1
  · exact le_trans t1
      (tier_updateTokensFallback (noteError (bumpWrites (preOpSwitch s))) o _ _ h1)

theorem inv_applyOp (s : TokenManager) (op : Op) (h : Inv s) :
    Inv (applyOp s op) := by
  cases op with
  | read o => exact inv_getTokensStep s o h
  | write o => exact inv_updateTokensStep s o h

theorem tier_applyOp (s : TokenManager) (op : Op) (h : Inv s) :
    tierIdx s.storage ≤ tierIdx (applyOp s op).storage := by
  cases op with
  | read o => exact tier_getTokensStep s o h
  | write o => exact tier_updateTokensStep s o h

theorem tier_runOps (s : TokenManager) (ops : List Op) (h : Inv s) :
    Inv (runOps s ops) ∧
      tierIdx s.storage ≤ tierIdx (runOps s ops).storage := by
  induction ops generalizing s with
  | nil => exact ⟨h, le_refl _⟩
  | cons op rest ih =>
      have h1 := inv_applyOp s op h
      have t1 := tier_applyOp s op h
      have hrest := ih (applyOp s op) h1
      exact ⟨hrest.1, le_trans t1 hrest.2⟩

theorem flags_of_storage_d1 (s : TokenManager) (h : Inv s)
    (hs : s.storage = Provider.d1) :
    s.env.useD1 = true ∧ s.env.hasD1 = true := by
  have h2 : defaultProvider s.env = Provider.d1 := by rw [← h.2, hs]
  unfold defaultProvider at h2
  split at h2
  · rename_i hc
    simp only [Bool.and_eq_true] at hc
    exact hc
  · split at h2 <;> simp_all

theorem flags_of_storage_redis (s : TokenManager) (h : Inv s)
    (hs : s.storage = Provider.redis) :
    s.env.useD1 = false ∧ s.env.useRedis = true ∧ s.env.hasRedis = true := by
  have h2 : defaultProvider s.env = Provider.redis := by rw [← h.2, hs]
  unfold defaultProvider at h2
  split at h2
  · simp_all
  · rename_i hc
    split at h2
    · rename_i hc2
      simp only [Bool.and_eq_true] at hc2
      refine ⟨?_, hc2.1, hc2.2⟩
      by_cases hd : s.env.useD1 = true
      · exact absurd (by simp [hd, h.1 hd]) hc
      · simpa using hd
    · simp_all

theorem flags_of_storage_kv (s : TokenManager) (h : Inv s)
    (hs : s.storage = Provider.kv) :
    s.env.useD1 = false
      ∧ (s.env.useRedis = false ∨ s.env.hasRedis = false) := by
  have h2 : defaultProvider s.env = Provider.kv := by rw [← h.2, hs]
  unfold defaultProvider at h2
  split at h2
  · simp_all
  · rename_i hc
    constructor
    · by_cases hd : s.env.useD1 = true
      · exact absurd (by simp [hd, h.1 hd]) hc
      · simpa using hd
    · split at h2
      · simp_all
      · rename_i hc2
        rcases Bool.not_eq_true _ ▸ hc2 with hx
        rcases Bool.and_eq_false_iff.mp (by simpa using hc2) with hu | hr
        · exact Or.inl hu
        · exact Or.inr hr

theorem pref_switchFromD1ToKV (s : TokenManager) :
    (switchFromD1ToKV s).env.storagePreference = s.env.storagePreference := by
  unfold switchFromD1ToKV
  split <;> rfl

theorem pref_switchFromKVToRedis (s : TokenManager) :
    (switchFromKVToRedis s).env.storagePreference = s.env.storagePreference := by
  unfold switchFromKVToRedis
  split <;> rfl

theorem pref_preOpSwitch (s : TokenManager) :
    (preOpSwitch s).env.storagePreference = s.env.storagePreference := by
  unfold preOpSwitch
  split
  · exact pref_switchFromD1ToKV s
  · split
    · exact pref_switchFromKVToRedis s
    · rfl

theorem shouldSwitchFromKVToRedis_false_of_zero (t : TokenManager)
    (h1 : t.storageStats.reads = 0) (h2 : t.storageStats.writes = 0)
    (h3 : t.consecutiveErrors = 0) :
    shouldSwitchFromKVToRedis t = false := by
  unfold shouldSwitchFromKVToRedis
  split
  · rfl
  · rw [h1, h2, h3]
    norm_num [kvReadThreshold, kvWriteThreshold, kvReadLimit, kvWriteLimit,
      errorThreshold]

theorem shouldSwitchFromD1ToKV_false_of_zero (t : TokenManager)
    (h1 : t.storageStats.reads = 0) (h2 : t.storageStats.writes = 0)
    (h3 : t.consecutiveErrors = 0) :
    shouldSwitchFromD1ToKV t = false := by
  unfold shouldSwitchFromD1ToKV
  split
  · rfl
  · rw [h1, h2, h3]
    norm_num [d1ReadThreshold, d1WriteThreshold, d1ReadLimit, d1WriteLimit,
      errorThreshold]

theorem getTokensFallback_attempts_head (s3 : TokenManager) (o : ReadOutcomes)
    (e : JsError) (p : Provider) :
    (getTokensFallback s3 o e p).attempts.head? = some p := by
  unfold getTokensFallback
  split
  · split
    · rfl
    · split
      · split <;> rfl
      · rfl
  · split
    · split
      · split <;> rfl
      · rfl
    · rfl

theorem getTokensStep_attempts_head (s : TokenManager) (o : ReadOutcomes) :
    (getTokensStep s o).attempts.head? = some (preOpSwitch s).storage := by
  unfold getTokensStep
  split
  · rfl
  · exact getTokensFallback_attempts_head _ o _ _

theorem getTokensFallback_attempts_mem (s3 : TokenManager) (o : ReadOutcomes)
    (e : JsError) (p : Provider) :
    ∀ q ∈ (getTokensFallback s3 o e p).attempts,
      q = p ∨ q = Provider.kv ∨ q = Provider.redis := by
  unfold getTokensFallback
  split
  · split
    · intro q hq
      simp only [List.mem_cons, List.not_mem_nil, or_false] at hq
      tauto
    · split
      · split <;>
          (intro q hq
           simp only [List.mem_cons, List.not_mem_nil, or_false] at hq
           tauto)
      · intro q hq
        simp only [List.mem_cons, List.not_mem_nil, or_false] at hq
        tauto
  · split
    · split
      · split <;>
          (intro q hq
           simp only [List.mem_cons, List.not_mem_nil, or_false] at hq
           tauto)
      · intro q hq
        simp only [List.mem_cons, List.not_mem_nil, or_false] at hq
        tauto
    · intro q hq
      simp only [List.mem_cons, List.not_mem_nil, or_false] at hq
      tauto

theorem getTokensStep_attempts_mem (s : TokenManager) (o : ReadOutcomes) :
    ∀ q ∈ (getTokensStep s o).attempts,
      q = (preOpSwitch s).storage ∨ q = Provider.kv ∨ q = Provider.redis := by
  unfold getTokensStep
  split
  · intro q hq
    simp only [List.mem_cons, List.not_mem_nil, or_false] at hq
    exact Or.inl hq
  · exact getTokensFallback_attempts_mem _ o _ _

theorem updateTokensFallback_attempts_head (s3 : TokenManager)
    (o : WriteOutcomes) (e : JsError) (p : Provider) :
    (updateTokensFallback s3 o e p).attempts.head? = some p := by
  unfold updateTokensFallback
  split
  · split
    · rfl
    · split
      · split <;> rfl
      · rfl
  · split
    · split
      · split <;> rfl
      · rfl
    · rfl

theorem updateTokensStep_attempts_head (s : TokenManager) (o : WriteOutcomes) :
    (updateTokensStep s o).attempts.head? = some (preOpSwitch s).storage := by
  unfold updateTokensStep
  split
  · rfl
  · exact updateTokensFallback_attempts_head _ o _ _

theorem updateTokensFallback_attempts_mem (s3 : TokenManager)
    (o : WriteOutcomes) (e : JsError) (p : Provider) :
    ∀ q ∈ (updateTokensFallback s3 o e p).attempts,
      q = p ∨ q = Provider.kv ∨ q = Provider.redis := by
  unfold updateTokensFallback
  split
  · split
    · intro q hq
      simp only [List.mem_cons, List.not_mem_nil, or_false] at hq
      tauto
    · split
      · split <;>
          (intro q hq
           simp only [List.mem_cons, List.not_mem_nil, or_false] at hq
           tauto)
      · intro q hq
        simp only [List.mem_cons, List.not_mem_nil, or_false] at hq
        tauto
  · split
    · split
      · split <;>
          (intro q hq
           simp only [List.mem_cons, List.not_mem_nil, or_false] at hq
           tauto)
      · intro q hq
        simp only [List.mem_cons, List.not_mem_nil, or_false] at hq
        tauto
    · intro q hq
      simp only [List.mem_cons, List.not_mem_nil, or_false] at hq
      tauto

theorem updateTokensStep_attempts_mem (s : TokenManager) (o : WriteOutcomes) :
    ∀ q ∈ (updateTokensStep s o).attempts,
      q = (preOpSwitch s).storage ∨ q = Provider.kv ∨ q = Provider.redis := by
  unfold updateTokensStep
  split
  · intro q hq
    simp only [List.mem_cons, List.not_mem_nil, or_false] at hq
    exact Or.inl hq
  · exact updateTokensFallback_attempts_mem _ o _ _

theorem mirrorTargets_mem (t : TokenManager) :
    ∀ q ∈ mirrorTargets t, q = Provider.kv ∨ q = Provider.redis := by
  intro q hq
  unfold mirrorTargets at hq
  split at hq
  · split at hq
    · simp only [List.mem_cons] at hq
      rcases hq with hq | hq
      · exact Or.inl hq
      · split at hq <;> simp_all
    · split at hq <;> simp_all
  · simp_all

theorem updateTokensStep_mirrors_mem (s : TokenManager) (o : WriteOutcomes) :
    ∀ q ∈ (updateTokensStep s o).mirrors,
      q = Provider.kv ∨ q = Provider.redis := by
  unfold updateTokensStep
  split
  · exact mirrorTargets_mem _
  · unfold updateTokensFallback
    split
    · split
      · simp
      · split
        · split <;> simp
        · simp
    · split
      · split
        · split <;> simp
        · simp
      · simp

theorem preOpSwitch_eq_self_of_redis (s : TokenManager) (h : Inv s)
    (hs : s.storage = Provider.redis) : preOpSwitch s = s := by
  obtain ⟨hd, hu, hhr⟩ := flags_of_storage_redis s h hs
  unfold preOpSwitch
  rw [if_neg (by simp [hd]), if_neg (by simp [hu])]

theorem shouldSwitchFromKVToRedis_false_of_noredis (s : TokenManager)
    (hr : s.env.hasRedis = false) : shouldSwitchFromKVToRedis s = false := by
  unfold shouldSwitchFromKVToRedis
  rw [if_pos (by simp [hr])]

theorem preOpSwitch_eq_self_of_kv_noredis (s : TokenManager) (h : Inv s)
    (hs : s.storage = Provider.kv) (hr : s.env.hasRedis = false) :
    preOpSwitch s = s := by
  obtain ⟨hd, _⟩ := flags_of_storage_kv s h hs
  unfold preOpSwitch
  rw [if_neg (by simp [hd]),
    if_neg (by simp [shouldSwitchFromKVToRedis_false_of_noredis s hr])]

theorem getTokensFallback_storage_noswitch (s3 : TokenManager)
    (o : ReadOutcomes) (e : JsError) (p : Provider)
    (hd : s3.env.useD1 = false)
    (hcase : s3.env.useRedis = true ∨ s3.env.hasRedis = false) :
    (getTokensFallback s3 o e p).state.storage = s3.storage := by
  unfold getTokensFallback
  split
  · rename_i hD
    rw [hd] at hD
    exact absurd hD (by simp)
  · split
    · split
      · rename_i hR hHR
        rcases hcase with hu | hr
        · rw [hu] at hR
          exact absurd hR (by simp)
        · rw [hr] at hHR
          exact absurd hHR (by simp)
      · rfl
    · rfl

theorem updateTokensFallback_storage_noswitch (s3 : TokenManager)
    (o : WriteOutcomes) (e : JsError) (p : Provider)
    (hd : s3.env.useD1 = false)
    (hcase : s3.env.useRedis = true ∨ s3.env.hasRedis = false) :
    (updateTokensFallback s3 o e p).state.storage = s3.storage := by
  unfold updateTokensFallback
  split
  · rename_i hD
    rw [hd] at hD
    exact absurd hD (by simp)
  · split
    · split
      · rename_i hR hHR
        rcases hcase with hu | hr
        · rw [hu] at hR
          exact absurd hR (by simp)
        · rw [hr] at hHR
          exact absurd hHR (by simp)
      · rfl
    · rfl

theorem storage_getTokensStep_redis (s : TokenManager) (o : ReadOutcomes)
    (h : Inv s) (hs : s.storage = Provider.redis) :
    (getTokensStep s o).state.storage = Provider.redis := by
  have hpre := preOpSwitch_eq_self_of_redis s h hs
  obtain ⟨hd, hu, hhr⟩ := flags_of_storage_redis s h hs
  unfold getTokensStep
  rw [hpre]
  split
  · simpa using hs
  · rw [getTokensFallback_storage_noswitch _ o _ _ (by simpa using hd)
      (Or.inl (by simpa using hu))]
    simpa using hs

theorem storage_updateTokensStep_redis (s : TokenManager) (o : WriteOutcomes)
    (h : Inv s) (hs : s.storage = Provider.redis) :
    (updateTokensStep s o).state.storage = Provider.redis := by
  have hpre := preOpSwitch_eq_self_of_redis s h hs
  obtain ⟨hd, hu, hhr⟩ := flags_of_storage_redis s h hs
  unfold updateTokensStep
  rw [hpre]
  split
  · simpa using hs
  · rw [updateTokensFallback_storage_noswitch _ o _ _ (by simpa using hd)
      (Or.inl (by simpa using hu))]
    simpa using hs

theorem storage_getTokensStep_kv_noredis (s : TokenManager) (o : ReadOutcomes)
    (h : Inv s) (hs : s.storage = Provider.kv) (hr : s.env.hasRedis = false) :
    (getTokensStep s o).state.storage = Provider.kv := by
  have hpre := preOpSwitch_eq_self_of_kv_noredis s h hs hr
  obtain ⟨hd, _⟩ := flags_of_storage_kv s h hs
  unfold getTokensStep
  rw [hpre]
  split
  · simpa using hs
  · rw [getTokensFallback_storage_noswitch _ o _ _ (by simpa using hd)
      (Or.inr (by simpa using hr))]
    simpa using hs

theorem storage_updateTokensStep_kv_noredis (s : TokenManager)
    (o : WriteOutcomes) (h : Inv s) (hs : s.storage = Provider.kv)
    (hr : s.env.hasRedis = false) :
    (updateTokensStep s o).state.storage = Provider.kv := by
  have hpre := preOpSwitch_eq_self_of_kv_noredis s h hs hr
  obtain ⟨hd, _⟩ := flags_of_storage_kv s h hs
  unfold updateTokensStep
  rw [hpre]
  split
  · simpa using hs
  · rw [updateTokensFallback_storage_noswitch _ o _ _ (by simpa using hd)
      (Or.inr (by simpa using hr))]
    simpa using hs

/-- C4 counterexample: in a reachable manager state where the key-value
store is the active tier (after a D1 demotion) with three consecutive
KV errors recorded, the next getTokens call demotes the active tier
from KEY_VALUE to the remote cache (Redis), so KEY_VALUE is not a
terminal fallback when Redis is configured. -/
theorem kv_not_terminal_cex :
    Inv mgrKVconsec3 ∧
    mgrKVconsec3.storage = Provider.kv ∧
    (getTokensStep mgrKVconsec3 oReadAllOk).state.storage = Provider.redis := by
  refine ⟨by decide, by decide, by decide⟩

/-- C4 (amended): the remote cache (Redis) is the terminal fallback:
once Redis is active no getTokens or updateTokens demotes further; the
key-value tier is terminal only when no Redis backend is configured. -/
theorem terminal_tier_demotion (s : TokenManager) (o : ReadOutcomes)
    (ow : WriteOutcomes) (h : Inv s) :
    (s.storage = Provider.redis →
        (getTokensStep s o).state.storage = Provider.redis ∧
        (updateTokensStep s ow).state.storage = Provider.redis) ∧
    (s.storage = Provider.kv → s.env.hasRedis = false →
        (getTokensStep s o).state.storage = Provider.kv ∧
        (updateTokensStep s ow).state.storage = Provider.kv) := by
  constructor
  · intro hs
    exact ⟨storage_getTokensStep_redis s o h hs,
           storage_updateTokensStep_redis s ow h hs⟩
  · intro hs hr
    exact ⟨storage_getTokensStep_kv_noredis s o h hs hr,
           storage_updateTokensStep_kv_noredis s ow h hs hr⟩

/-- Witness for the amended terminal-tier theorem at a concrete
reachable Redis-active state and at a concrete KV-only state. -/
theorem terminal_tier_demotion_witness :
    ((getTokensStep (getTokensStep mgrKVconsec3 oReadAllOk).state
        oReadAllFail).state.storage = Provider.redis ∧
      (updateTokensStep (getTokensStep mgrKVconsec3 oReadAllOk).state
        wAllOk).state.storage = Provider.redis) ∧
    ((getTokensStep mgrKVonly oReadAllFail).state.storage = Provider.kv ∧
      (updateTokensStep mgrKVonly wAllOk).state.storage = Provider.kv) :=
  ⟨(terminal_tier_demotion (getTokensStep mgrKVconsec3 oReadAllOk).state
      oReadAllFail wAllOk (by decide)).1 (by decide),
   (terminal_tier_demotion mgrKVonly oReadAllFail wAllOk (by decide)).2
      (by decide) (by decide)⟩

/-- C5: tier transitions are one-directional and monotonic: over any
sequence of getTokens and updateTokens operations from an invariant
state, the tier rank of the active provider never decreases, so a tier
once left by demotion is never automatically re-promoted. -/
theorem tier_transitions_monotone (s : TokenManager) (ops1 ops2 : List Op)
    (h : Inv s) :
    tierIdx (runOps s ops1).storage ≤
      tierIdx (runOps s (ops1 ++ ops2)).storage := by
  have h1 := (tier_runOps s ops1 h).1
  have h2 := (tier_runOps (runOps s ops1) ops2 h1).2
  have hsplit : runOps s (ops1 ++ ops2) = runOps (runOps s ops1) ops2 := by
    unfold runOps
    exact List.foldl_append applyOp s ops1 ops2
  rw [hsplit]
  exact h2

/-- Witness for tier monotonicity on a concrete run that demotes from
D1 to KV. -/
theorem tier_transitions_monotone_witness :
    tierIdx (runOps mgrD1Redis [Op.read oReadAllFail]).storage ≤
      tierIdx (runOps mgrD1Redis
        ([Op.read oReadAllFail] ++
          [Op.read oReadAllFail, Op.read oReadAllFail,
           Op.read oReadKVRedisFail])).storage :=
  tier_transitions_monotone mgrD1Redis [Op.read oReadAllFail]
    [Op.read oReadAllFail, Op.read oReadAllFail, Op.read oReadKVRedisFail]
    (by decide)

/-- C9: the D1 adapter initialization only queries sqlite_master and
returns; when the tokens table is absent it reports success without
creating it, contradicting both the claim and the adapter doc comment
(Creates the tokens table if it does not exist).  In general the body
either returns the database unchanged or propagates the check error. -/
theorem d1_initialize_no_creation :
    D1Storage.initTokensTable { hasTokensTable := false, rows := [] } true =
      Except.ok { hasTokensTable := false, rows := [] } ∧
    ∀ (db : D1State) (c : Bool),
      D1Storage.initTokensTable db c = Except.ok db ∨
      D1Storage.initTokensTable db c =
        Except.error { status := some 500, message := "D1 error checking database" } := by
  constructor
  · rfl
  · intro db c
    unfold D1Storage.initTokensTable
    cases c
    · simp
    · by_cases hdb : db.hasTokensTable = false <;> simp [hdb]

/-- C8 counterexample: a record whose expiry equals the current instant
is NOT refreshed by the staleness check in makeRequest (the source
comparison is strict), although the claim says a record with expires_at
at or before the current time is refreshed. -/
theorem staleness_boundary_cex :
    tokensR1.expires = 0 ∧
    TidalAPI.isExpired 0 tokensR1 = false ∧
    TidalAPI.tokensForRequest 0 tokensR1 sampleTokens = tokensR1 ∧
    tokensR1 ≠ sampleTokens := by
  refine ⟨rfl, rfl, rfl, by decide⟩

/-- C8 (amended): the caller-side staleness test is strict: a record is
treated as stale exactly when the current time is strictly after
expires, in which case the refreshed record is used; when the current
time is at or before expires the stored record is used unrefreshed. -/
theorem staleness_strict (now : Int) (t r : TokenData) :
    (TidalAPI.isExpired now t = true ↔ t.expires < now) ∧
    (t.expires < now → TidalAPI.tokensForRequest now t r = r) ∧
    (now ≤ t.expires → TidalAPI.tokensForRequest now t r = t) := by
  refine ⟨?_, ?_, ?_⟩
  · unfold TidalAPI.isExpired
    exact decide_eq_true_iff
  · intro hlt
    unfold TidalAPI.tokensForRequest
    rw [if_pos hlt]
  · intro hle
    unfold TidalAPI.tokensForRequest
    rw [if_neg (not_lt.mpr hle)]

/-- Witness for the amended staleness theorem at concrete instants on
both sides of the expiry. -/
theorem staleness_strict_witness :
    TidalAPI.tokensForRequest 5 tokensR1 sampleTokens = sampleTokens ∧
    TidalAPI.tokensForRequest 0 tokensR1 sampleTokens = tokensR1 :=
  ⟨(staleness_strict 5 tokensR1 sampleTokens).2.1 (by decide),
   (staleness_strict 0 tokensR1 sampleTokens).2.2 (by decide)⟩

/-- C10: getStorageStats returns a detached snapshot: the fresh object
it allocates is a different object from the one the manager owns, the
copy leaves the manager statistics unchanged, and mutating the returned
object does not change the manager statistics. -/
theorem getStorageStats_snapshot (h : List StorageStats) (r : Nat)
    (v : StorageStats) (hr : r < h.length) :
    (getStorageStatsHeap h r).2 ≠ r ∧
    heapGet (getStorageStatsHeap h r).1 r = heapGet h r ∧
    heapGet (heapSet (getStorageStatsHeap h r).1 (getStorageStatsHeap h r).2 v) r
      = heapGet h r := by
  unfold getStorageStatsHeap heapGet heapSet
  refine ⟨by simp only; omega, ?_, ?_⟩
  · simp only [List.getD_eq_getElem?_getD, List.getElem?_append_left hr]
  · simp only [List.getD_eq_getElem?_getD]
    rw [List.getElem?_set_ne (by omega), List.getElem?_append_left hr]

/-- Witness for the snapshot theorem on a concrete one-object heap. -/
theorem getStorageStats_snapshot_witness :
    (getStorageStatsHeap [emptyStats] 0).2 ≠ 0 ∧
    heapGet (getStorageStatsHeap [emptyStats] 0).1 0 = heapGet [emptyStats] 0 ∧
    heapGet
      (heapSet (getStorageStatsHeap [emptyStats] 0).1
        (getStorageStatsHeap [emptyStats] 0).2
        { provider := "mutated", reads := 7, writes := 7, errors := 7
          status := "mutated" }) 0
      = heapGet [emptyStats] 0 :=
  getStorageStats_snapshot [emptyStats] 0
    { provider := "mutated", reads := 7, writes := 7, errors := 7
      status := "mutated" } (by decide)

theorem preOpSwitch_eq_switchD1 (s : TokenManager) (hu : s.env.useD1 = true)
    (hsw : shouldSwitchFromD1ToKV s = true) :
    preOpSwitch s = switchFromD1ToKV s := by
  unfold preOpSwitch
  rw [if_pos (by simp [hu, hsw])]

theorem preOpSwitch_eq_switchKV (s : TokenManager) (hd : s.env.useD1 = false)
    (hu : s.env.useRedis = false) (hsw : shouldSwitchFromKVToRedis s = true) :
    preOpSwitch s = switchFromKVToRedis s := by
  unfold preOpSwitch
  rw [if_neg (by simp [hd]), if_pos (by simp [hd, hu, hsw])]

theorem shouldSwitchD1_of_quota (s : TokenManager) (hu : s.env.useD1 = true)
    (hauto : s.env.storagePreference = some "auto")
    (hq : s.storageStats.reads ≥ d1ReadThreshold
        ∨ s.storageStats.writes ≥ d1WriteThreshold) :
    shouldSwitchFromD1ToKV s = true := by
  unfold shouldSwitchFromD1ToKV
  rw [if_neg (by simp [hu, hauto]), if_pos (by rcases hq with h | h <;> simp [h])]

theorem shouldSwitchD1_of_errors (s : TokenManager) (hu : s.env.useD1 = true)
    (hauto : s.env.storagePreference = some "auto")
    (hc : s.consecutiveErrors ≥ errorThreshold) :
    shouldSwitchFromD1ToKV s = true := by
  by_cases hq : s.storageStats.reads ≥ d1ReadThreshold
      ∨ s.storageStats.writes ≥ d1WriteThreshold
  · exact shouldSwitchD1_of_quota s hu hauto hq
  · unfold shouldSwitchFromD1ToKV
    rw [if_neg (by simp [hu, hauto]),
      if_neg (by simp only [Bool.or_eq_true, decide_eq_true_eq]; exact hq),
      if_pos hc]

theorem shouldSwitchKV_of_quota (s : TokenManager) (hd : s.env.useD1 = false)
    (hu : s.env.useRedis = false) (hr : s.env.hasRedis = true)
    (hauto : s.env.storagePreference = some "auto")
    (hq : s.storageStats.reads ≥ kvReadThreshold
        ∨ s.storageStats.writes ≥ kvWriteThreshold) :
    shouldSwitchFromKVToRedis s = true := by
  unfold shouldSwitchFromKVToRedis
  rw [if_neg (by simp [hd, hu, hr, hauto]),
    if_pos (by rcases hq with h | h <;> simp [h])]

theorem shouldSwitchKV_of_errors (s : TokenManager) (hd : s.env.useD1 = false)
    (hu : s.env.useRedis = false) (hr : s.env.hasRedis = true)
    (hauto : s.env.storagePreference = some "auto")
    (hc : s.consecutiveErrors ≥ errorThreshold) :
    shouldSwitchFromKVToRedis s = true := by
  by_cases hq : s.storageStats.reads ≥ kvReadThreshold
      ∨ s.storageStats.writes ≥ kvWriteThreshold
  · exact shouldSwitchKV_of_quota s hd hu hr hauto hq
  · unfold shouldSwitchFromKVToRedis
    rw [if_neg (by simp [hd, hu, hr, hauto]),
      if_neg (by simp only [Bool.or_eq_true, decide_eq_true_eq]; exact hq),
      if_pos hc]

theorem getTokensStep_attempts_of_redis (s : TokenManager) (o : ReadOutcomes)
    (h : Inv s) (hst : (preOpSwitch s).storage = Provider.redis) :
    (getTokensStep s o).attempts = [Provider.redis] := by
  have hI := inv_preOpSwitch s h
  obtain ⟨hd, hu, hhr⟩ := flags_of_storage_redis _ hI hst
  unfold getTokensStep
  split
  · simp [hst]
  · unfold getTokensFallback
    rw [if_neg (by simp [hd]), if_neg (by simp [hu])]
    simp [hst]

theorem updateTokensStep_attempts_of_redis (s : TokenManager)
    (ow : WriteOutcomes) (h : Inv s)
    (hst : (preOpSwitch s).storage = Provider.redis) :
    (updateTokensStep s ow).attempts = [Provider.redis] ∧
      (updateTokensStep s ow).mirrors = [] := by
  have hI := inv_preOpSwitch s h
  obtain ⟨hd, hu, hhr⟩ := flags_of_storage_redis _ hI hst
  unfold updateTokensStep
  split
  · constructor
    · simp [hst]
    · unfold mirrorTargets
      split
      · rw [if_neg (by simp [hd]), if_neg (by simp [hu])]
      · rfl
  · unfold updateTokensFallback
    rw [if_neg (by simp [hd]), if_neg (by simp [hu])]
    simp [hst]

/-- C2: with auto failover enabled and cumulative reads or writes of
the active tier at or above 95 percent of its daily quota, the next
getTokens or updateTokens call demotes the active tier to the next
lower tier before delegating: the first backend attempted is the lower
tier and the original tier is not touched by that operation (for the KV
tier a Redis backend must be configured for a next tier to exist). -/
theorem quota_demotion_before_delegation (s : TokenManager) (h : Inv s)
    (hauto : s.env.storagePreference = some "auto") :
    (s.env.useD1 = true →
      (s.storageStats.reads ≥ d1ReadThreshold
        ∨ s.storageStats.writes ≥ d1WriteThreshold) →
      (preOpSwitch s).storage = Provider.kv ∧
      (∀ o : ReadOutcomes,
        (getTokensStep s o).attempts.head? = some Provider.kv ∧
        Provider.d1 ∉ (getTokensStep s o).attempts) ∧
      (∀ ow : WriteOutcomes,
        (updateTokensStep s ow).attempts.head? = some Provider.kv ∧
        Provider.d1 ∉ (updateTokensStep s ow).attempts ∧
        Provider.d1 ∉ (updateTokensStep s ow).mirrors)) ∧
    (s.storage = Provider.kv → s.env.hasRedis = true →
      (s.storageStats.reads ≥ kvReadThreshold
        ∨ s.storageStats.writes ≥ kvWriteThreshold) →
      (preOpSwitch s).storage = Provider.redis ∧
      (∀ o : ReadOutcomes, (getTokensStep s o).attempts = [Provider.redis]) ∧
      (∀ ow : WriteOutcomes,
        (updateTokensStep s ow).attempts = [Provider.redis] ∧
        (updateTokensStep s ow).mirrors = [])) := by
  constructor
  · intro hu hq
    have hsw := shouldSwitchD1_of_quota s hu hauto hq
    have hpre : preOpSwitch s = switchFromD1ToKV s :=
      preOpSwitch_eq_switchD1 s hu hsw
    have hst : (preOpSwitch s).storage = Provider.kv := by
      rw [hpre]
      unfold switchFromD1ToKV
      rw [if_pos hu]
    refine ⟨hst, ?_, ?_⟩
    · intro o
      constructor
      · rw [getTokensStep_attempts_head, hst]
      · intro hmem
        rcases getTokensStep_attempts_mem s o _ hmem with h1 | h1 | h1 <;>
          rw [hst] at * <;> simp_all
    · intro ow
      refine ⟨by rw [updateTokensStep_attempts_head, hst], ?_, ?_⟩
      · intro hmem
        rcases updateTokensStep_attempts_mem s ow _ hmem with h1 | h1 | h1 <;>
          rw [hst] at * <;> simp_all
      · intro hmem
        rcases updateTokensStep_mirrors_mem s ow _ hmem with h1 | h1 <;> simp_all
  · intro hs hr hq
    obtain ⟨hd, hcase⟩ := flags_of_storage_kv s h hs
    have hu : s.env.useRedis = false := by
      rcases hcase with h1 | h1
      · exact h1
      · rw [h1] at hr
        exact absurd hr (by simp)
    have hsw := shouldSwitchKV_of_quota s hd hu hr hauto hq
    have hpre : preOpSwitch s = switchFromKVToRedis s :=
      preOpSwitch_eq_switchKV s hd hu hsw
    have hst : (preOpSwitch s).storage = Provider.redis := by
      rw [hpre]
      unfold switchFromKVToRedis
      rw [if_pos (by simp [hd, hu, hr])]
    refine ⟨hst, ?_, ?_⟩
    · intro o
      exact getTokensStep_attempts_of_redis s o h hst
    · intro ow
      exact updateTokensStep_attempts_of_redis s ow h hst

/-- Witness for the quota-demotion theorem: a D1-active manager with
95500 writes recorded demotes to KV and the next write is served by KV,
and a KV-active manager at 95000 reads with Redis configured demotes to
Redis. -/
theorem quota_demotion_before_delegation_witness :
    ((preOpSwitch mgrD1writes95500).storage = Provider.kv ∧
      (updateTokensStep mgrD1writes95500 wAllOk).attempts.head? =
        some Provider.kv ∧
      Provider.d1 ∉ (updateTokensStep mgrD1writes95500 wAllOk).attempts) ∧
    ((preOpSwitch mgrKVreads95000).storage = Provider.redis ∧
      (getTokensStep mgrKVreads95000 oReadAllOk).attempts = [Provider.redis]) := by
  have h1 := (quota_demotion_before_delegation mgrD1writes95500 (by decide)
    (by decide)).1 (by decide) (by decide)
  have h2 := (quota_demotion_before_delegation mgrKVreads95000 (by decide)
    (by decide)).2 (by decide) (by decide) (by decide)
  exact ⟨⟨h1.1, (h1.2.2 wAllOk).1, (h1.2.2 wAllOk).2.1⟩,
         ⟨h2.1, h2.2.1 oReadAllOk⟩⟩

/-- C3 counterexample: from a reachable D1-active state with the
consecutive-error counter at the threshold, one getTokens call first
demotes D1 to KV by the policy (with the counter reset to zero), then,
because the KV read fails with a single 429 error while the Redis
fallback succeeds, demotes again to Redis inside the same call: a
second demotion without three new consecutive errors on the new tier. -/
theorem error_demotion_double_cex :
    mgrD1consec3.storage = Provider.d1 ∧
    mgrD1consec3.consecutiveErrors = 3 ∧
    (preOpSwitch mgrD1consec3).storage = Provider.kv ∧
    (preOpSwitch mgrD1consec3).consecutiveErrors = 0 ∧
    (getTokensStep mgrD1consec3 oReadKV429).state.storage = Provider.redis := by
  refine ⟨by decide, by decide, by decide, by decide, by decide⟩

/-- C3 (amended): when the consecutive-error counter reaches the
threshold of 3 in auto mode, the policy evaluation at the top of the
next operation demotes the active tier exactly one tier and resets the
usage statistics to zero reads, writes and errors, and the counter to
zero; an immediate re-evaluation of the policy performs no further
demotion (a second demotion needs three new consecutive errors or the
quota threshold on the new tier, or a single 429-status error on the
new tier inside the fallback path of the same call). -/
theorem error_threshold_demotion (s : TokenManager) (h : Inv s)
    (hauto : s.env.storagePreference = some "auto")
    (hc : s.consecutiveErrors ≥ errorThreshold) :
    (s.env.useD1 = true →
      (preOpSwitch s).storage = Provider.kv ∧
      (preOpSwitch s).storageStats.reads = 0 ∧
      (preOpSwitch s).storageStats.writes = 0 ∧
      (preOpSwitch s).storageStats.errors = 0 ∧
      (preOpSwitch s).consecutiveErrors = 0 ∧
      shouldSwitchFromKVToRedis (preOpSwitch s) = false ∧
      preOpSwitch (preOpSwitch s) = preOpSwitch s) ∧
    (s.storage = Provider.kv → s.env.hasRedis = true →
      (preOpSwitch s).storage = Provider.redis ∧
      (preOpSwitch s).storageStats.reads = 0 ∧
      (preOpSwitch s).storageStats.writes = 0 ∧
      (preOpSwitch s).storageStats.errors = 0 ∧
      (preOpSwitch s).consecutiveErrors = 0 ∧
      preOpSwitch (preOpSwitch s) = preOpSwitch s) := by
  constructor
  · intro hu
    have hsw := shouldSwitchD1_of_errors s hu hauto hc
    have hpre : preOpSwitch s = switchFromD1ToKV s :=
      preOpSwitch_eq_switchD1 s hu hsw
    have hdef : switchFromD1ToKV s =
        { env := { s.env with useD1 := false, useRedis := false }
          storage := Provider.kv
          storageStats := { provider := "kv", reads := 0, writes := 0, errors := 0
                            status := s.storageStats.status }
          consecutiveErrors := 0 } := by
      unfold switchFromD1ToKV
      rw [if_pos hu]
    have hz : shouldSwitchFromKVToRedis (switchFromD1ToKV s) = false := by
      rw [hdef]
      exact shouldSwitchFromKVToRedis_false_of_zero _ rfl rfl rfl
    rw [hpre]
    refine ⟨?_, ?_, ?_, ?_, ?_, hz, ?_⟩
    · rw [hdef]
    · rw [hdef]
    · rw [hdef]
    · rw [hdef]
    · rw [hdef]
    · unfold preOpSwitch
      rw [if_neg (by rw [hdef]; simp), if_neg (by simp [hz])]
  · intro hs hr
    obtain ⟨hd, hcase⟩ := flags_of_storage_kv s h hs
    have hu2 : s.env.useRedis = false := by
      rcases hcase with h1 | h1
      · exact h1
      · rw [h1] at hr
        exact absurd hr (by simp)
    have hsw := shouldSwitchKV_of_errors s hd hu2 hr hauto hc
    have hpre : preOpSwitch s = switchFromKVToRedis s :=
      preOpSwitch_eq_switchKV s hd hu2 hsw
    have hdef : switchFromKVToRedis s =
        { env := { s.env with useRedis := true }
          storage := Provider.redis
          storageStats := { provider := "redis", reads := 0, writes := 0
                            errors := 0, status := s.storageStats.status }
          consecutiveErrors := 0 } := by
      unfold switchFromKVToRedis
      rw [if_pos (by simp [hd, hu2, hr])]
    rw [hpre]
    refine ⟨?_, ?_, ?_, ?_, ?_, ?_⟩
    · rw [hdef]
    · rw [hdef]
    · rw [hdef]
    · rw [hdef]
    · rw [hdef]
    · unfold preOpSwitch
      rw [if_neg (by rw [hdef]; simp [hd]), if_neg (by rw [hdef]; simp)]

/-- Witness for the error-threshold demotion theorem at the two
reachable fixture states (D1 active with 3 consecutive errors, and KV
active with 3 consecutive errors and Redis configured). -/
theorem error_threshold_demotion_witness :
    ((preOpSwitch mgrD1consec3).storage = Provider.kv ∧
      (preOpSwitch mgrD1consec3).storageStats.reads = 0 ∧
      (preOpSwitch mgrD1consec3).consecutiveErrors = 0) ∧
    ((preOpSwitch mgrKVconsec3).storage = Provider.redis ∧
      (preOpSwitch mgrKVconsec3).consecutiveErrors = 0) := by
  have h1 := (error_threshold_demotion mgrD1consec3 (by decide) (by decide)
    (by decide)).1 (by decide)
  have h2 := (error_threshold_demotion mgrKVconsec3 (by decide) (by decide)
    (by decide)).2 (by decide) (by decide)
  exact ⟨⟨h1.1, h1.2.1, h1.2.2.2.2.1⟩, ⟨h2.1, h2.2.2.2.2.1⟩⟩

/-- C6 counterexample: with D1 active and no Redis configured, a
getTokens call in which the D1 read fails with errD1 and the KV
fallback fails with errKV re-raises errKV (the fallback tier error),
not the original error errD1 from the top-attempted tier. -/
theorem getTokens_original_error_cex :
    mgrD1only.storage = Provider.d1 ∧
    (getTokensStep mgrD1only oReadD1KVFail).result = Except.error errKV ∧
    errKV ≠ errD1 := by
  refine ⟨by decide, by decide, by decide⟩

/-- C6 (amended): when every attempted tier of a getTokens call fails,
the original error from the top-attempted tier is re-raised in every
configuration except one: when D1 is active, Redis is not configured
and the KV fallback fails, the KV fallback error is raised instead. -/
theorem getTokens_error_propagation (s : TokenManager) (o : ReadOutcomes)
    (e : JsError) (h : Inv s) (hpre : preOpSwitch s = s)
    (hprim : o.read s.storage = Except.error e) :
    (s.storage = Provider.kv → s.env.hasRedis = true →
      ∀ e2, o.read Provider.redis = Except.error e2 →
        (getTokensStep s o).result = Except.error e) ∧
    (s.storage = Provider.kv → s.env.hasRedis = false →
      (getTokensStep s o).result = Except.error e) ∧
    (s.storage = Provider.d1 → s.env.hasRedis = true →
      ∀ e2 e3, o.read Provider.kv = Except.error e2 →
        o.read Provider.redis = Except.error e3 →
        (getTokensStep s o).result = Except.error e) ∧
    (s.storage = Provider.d1 → s.env.hasRedis = false →
      ∀ e2, o.read Provider.kv = Except.error e2 →
        (getTokensStep s o).result = Except.error e2) ∧
    (s.storage = Provider.redis →
      (getTokensStep s o).result = Except.error e) := by
  refine ⟨?_, ?_, ?_, ?_, ?_⟩
  · intro hs hr e2 he2
    obtain ⟨hd, hcase⟩ := flags_of_storage_kv s h hs
    have hu : s.env.useRedis = false := by
      rcases hcase with h1 | h1
      · exact h1
      · rw [h1] at hr
        exact absurd hr (by simp)
    unfold getTokensStep
    simp only [hpre, bumpReads_storage, hprim]
    unfold getTokensFallback
    rw [if_neg (by simp [hd]), if_pos (by simp [hu]), if_pos (by simp [hr])]
    simp only [he2]
  · intro hs hr
    obtain ⟨hd, _⟩ := flags_of_storage_kv s h hs
    unfold getTokensStep
    simp only [hpre, bumpReads_storage, hprim]
    unfold getTokensFallback
    rw [if_neg (by simp [hd])]
    split
    · rw [if_neg (by simp [hr])]
    · rfl
  · intro hs hr e2 e3 he2 he3
    obtain ⟨hu, _⟩ := flags_of_storage_d1 s h hs
    unfold getTokensStep
    simp only [hpre, bumpReads_storage, hprim]
    unfold getTokensFallback
    rw [if_pos (by simp [hu])]
    simp only [he2]
    rw [if_pos (by simp [hr])]
    simp only [he3]
  · intro hs hr e2 he2
    obtain ⟨hu, _⟩ := flags_of_storage_d1 s h hs
    unfold getTokensStep
    simp only [hpre, bumpReads_storage, hprim]
    unfold getTokensFallback
    rw [if_pos (by simp [hu])]
    simp only [he2]
    rw [if_neg (by simp [hr])]
  · intro hs
    obtain ⟨hd, hu, _⟩ := flags_of_storage_redis s h hs
    unfold getTokensStep
    simp only [hpre, bumpReads_storage, hprim]
    unfold getTokensFallback
    rw [if_neg (by simp [hd]), if_neg (by simp [hu])]

/-- Witness for the amended error-propagation theorem: the original
error is re-raised for a KV-active manager with Redis configured and
for a KV-only manager, and the KV error is raised for a D1-active
manager without Redis. -/
theorem getTokens_error_propagation_witness :
    (getTokensStep (preOpSwitch mgrD1consec3) oReadAllFail).result =
      Except.error errKV ∧
    (getTokensStep mgrKVonly oReadAllFail).result = Except.error errKV ∧
    (getTokensStep mgrD1only oReadD1KVFail).result = Except.error errKV := by
  refine ⟨?_, ?_, ?_⟩
  · exact (getTokens_error_propagation (preOpSwitch mgrD1consec3) oReadAllFail
      errKV (by decide) (by decide) (by decide)).1 (by decide) (by decide)
      errRedis (by decide)
  · exact (getTokens_error_propagation mgrKVonly oReadAllFail errKV
      (by decide) (by decide) (by decide)).2.1 (by decide) (by decide)
  · exact (getTokens_error_propagation mgrD1only oReadD1KVFail errD1
      (by decide) (by decide) (by decide)).2.2.2.1 (by decide) (by decide)
      errKV (by decide)

theorem mirrorTargets_eq_lower (t : TokenManager) (h : Inv t)
    (hauto : t.env.storagePreference = some "auto") :
    mirrorTargets t = lowerConfiguredTiers t := by
  unfold mirrorTargets lowerConfiguredTiers
  rw [if_pos hauto]
  cases ht : t.storage with
  | d1 =>
      obtain ⟨hu, _⟩ := flags_of_storage_d1 t h ht
      rw [if_pos (by simp [hu])]
  | kv =>
      obtain ⟨hd, hcase⟩ := flags_of_storage_kv t h ht
      rw [if_neg (by simp [hd])]
      rcases hcase with h1 | h1
      · simp [h1]
      · simp [h1]
  | redis =>
      obtain ⟨hd, hu, _⟩ := flags_of_storage_redis t h ht
      rw [if_neg (by simp [hd]), if_neg (by simp [hu])]

/-- C7: in auto mode, whenever the active-tier write of updateTokens
succeeds, the call returns successfully for every combination of mirror
outcomes (mirror failures are caught and logged only), and the
best-effort mirror writes attempted are exactly the strictly lower
configured tiers. -/
theorem mirror_writes_best_effort (s : TokenManager) (ow : WriteOutcomes)
    (h : Inv s) (hauto : s.env.storagePreference = some "auto")
    (hok : ow.write (preOpSwitch s).storage = Except.ok ()) :
    (updateTokensStep s ow).result = Except.ok () ∧
    (updateTokensStep s ow).mirrors = lowerConfiguredTiers (preOpSwitch s) := by
  have hI := inv_preOpSwitch s h
  have hauto2 : (preOpSwitch s).env.storagePreference = some "auto" := by
    rw [pref_preOpSwitch]
    exact hauto
  unfold updateTokensStep
  simp only [bumpWrites_storage, hok]
  constructor
  · trivial
  · exact mirrorTargets_eq_lower (preOpSwitch s) hI hauto2

/-- Witness for the mirrored-write theorem: a fresh D1-active manager
whose primary write succeeds while both mirror writes fail still
returns success, and the mirrors attempted are KV and Redis. -/
theorem mirror_writes_best_effort_witness :
    (updateTokensStep mgrD1Redis wMirrorsFail).result = Except.ok () ∧
    (updateTokensStep mgrD1Redis wMirrorsFail).mirrors =
      lowerConfiguredTiers (preOpSwitch mgrD1Redis) :=
  mirror_writes_best_effort mgrD1Redis wMirrorsFail (by decide) (by decide)
    (by decide)

/-- C1 counterexample: refreshTokens for MOBILE_DEFAULT on a KV-only
manager, when the upstream rotates the television refresh token from R1
to R2, returns and persists a mobile record whose refresh_token is R2:
the original mobile refresh token R1 is not preserved. -/
theorem refresh_mobile_rotation_cex :
    (refreshTokens mgrKVonly SessionType.MOBILE_DEFAULT tokensR1 tvRespRot
        mobResp 1000 wAllOk wAllOk).result =
      Except.ok { access_token := "am2", refresh_token := "R2"
                  expires := 3601000, country_code := "US", updated_at := 1000 } ∧
    (refreshTokens mgrKVonly SessionType.MOBILE_DEFAULT tokensR1 tvRespRot
        mobResp 1000 wAllOk wAllOk).persistedForProfile =
      some { access_token := "am2", refresh_token := "R2"
             expires := 3601000, country_code := "US", updated_at := 1000 } ∧
    tokensR1.refresh_token = "R1" ∧ ("R2" : String) ≠ "R1" := by
  refine ⟨by decide, by decide, rfl, by decide⟩

/-- C1 (amended): for a mobile profile, the record refreshTokens
returns and hands to updateTokens for that profile carries as its
refresh_token the television refresh token used for the mobile exchange
(the rotated token when the upstream response carries one, otherwise
the refresh token of the record passed in); the original refresh token
of the passed-in record is preserved exactly when the upstream does not
rotate. -/
theorem refresh_mobile_refresh_token (s : TokenManager) (st : SessionType)
    (tokens : TokenData) (tvResp mobileResp : AuthResponse) (now : Int)
    (tvW mobW : WriteOutcomes) (hst : ¬st = SessionType.TV) (m : TokenData)
    (hres : (refreshTokens s st tokens tvResp mobileResp now tvW mobW).result
      = Except.ok m) :
    m.refresh_token = orFalsy tvResp.refresh_token tokens.refresh_token ∧
    (refreshTokens s st tokens tvResp mobileResp now tvW
        mobW).persistedForProfile = some m ∧
    (tvResp.refresh_token = none →
      m.refresh_token = tokens.refresh_token) := by
  rw [refreshTokens] at hres ⊢
  cases htv : tvResp.ok with
  | false =>
      simp [htv] at hres
  | true =>
      simp only [htv, Bool.not_true, Bool.false_eq_true, if_false] at hres ⊢
      cases hw1 : (updateTokensStep s tvW).result with
      | error e1 =>
          rw [hw1] at hres
          simp at hres
      | ok u1 =>
          rw [hw1] at hres
          dsimp only at hres ⊢
          rw [if_neg hst] at hres ⊢
          cases hm : refreshMobileToken
              (orFalsy tvResp.refresh_token tokens.refresh_token)
              mobileResp now with
          | error e2 =>
              rw [hm] at hres
              simp at hres
          | ok mt =>
              rw [hm] at hres
              dsimp only at hres ⊢
              cases hw2 : (updateTokensStep
                  (updateTokensStep s tvW).state mobW).result with
              | error e3 =>
                  rw [hw2] at hres
                  simp at hres
              | ok u2 =>
                  rw [hw2] at hres
                  dsimp only at hres ⊢
                  simp only [Except.ok.injEq] at hres
                  subst hres
                  have hmt : mt.refresh_token =
                      orFalsy tvResp.refresh_token tokens.refresh_token := by
                    rw [refreshMobileToken] at hm
                    cases hmo : mobileResp.ok with
                    | false =>
                        simp [hmo] at hm
                    | true =>
                        rw [hmo] at hm
                        simp only [Bool.not_true, Bool.false_eq_true,
                          if_false, Except.ok.injEq] at hm
                        rw [← hm]
                  refine ⟨hmt, rfl, ?_⟩
                  intro hnone
                  rw [hmt, hnone]
                  rfl

/-- Witness for the amended refresh theorem: with a non-rotating
upstream response the mobile record keeps the refresh token of the
record passed in. -/
theorem refresh_mobile_refresh_token_witness :
    ({ access_token := "am2", refresh_token := "R1", expires := 3601000
       country_code := "US", updated_at := 1000 } : TokenData).refresh_token =
      orFalsy tvRespNoRot.refresh_token tokensR1.refresh_token ∧
    (refreshTokens mgrKVonly SessionType.MOBILE_DEFAULT tokensR1 tvRespNoRot
        mobResp 1000 wAllOk wAllOk).persistedForProfile =
      some { access_token := "am2", refresh_token := "R1", expires := 3601000
             country_code := "US", updated_at := 1000 } :=
  ⟨(refresh_mobile_refresh_token mgrKVonly SessionType.MOBILE_DEFAULT tokensR1
      tvRespNoRot mobResp 1000 wAllOk wAllOk (by decide) _ (by decide)).1,
   (refresh_mobile_refresh_token mgrKVonly SessionType.MOBILE_DEFAULT tokensR1
      tvRespNoRot mobResp 1000 wAllOk wAllOk (by decide) _ (by decide)).2.1⟩

end Echoir
